import Mathlib

/-!
Verification of the StormAudio AVR IP control protocol handler
(src/stormaudio/protocol.py) against its natural-language specification.

The development shallow-embeds the protocol state machine: the attribute
state table kept as dynamic object attributes becomes an association list
from attribute name to value string, the asyncio side effects (transport
writes, scheduled callbacks) become explicit components of the returned
values, and Python exceptions that escape a handler become an `Except`
error value.
-/

namespace Stormaudio

/-- Python exceptions that matter to the embedded code paths. -/
inductive PyErr where
  | valueError
  | nameError
  | attributeError
  | typeError
deriving DecidableEq, Repr

/-- The keys of the module-level LOOKUP table, in insertion order
(protocol.py lines 18-78).  Only the keys matter to the verified
behavior; the description / value-label tables are used for logging
only. -/
def LOOKUPkeys : List String :=
  [ "ssp.procstate"
  , "ssp.power"
  , "ssp.version"
  , "ssp.brand"
  , "ssp.msgstatus"
  , "ssp.input"
  , "ssp.input.list"
  , "ssp.preset"
  , "ssp.surroundmode"
  , "ssp.allowedmode"
  , "ssp.speaker"
  , "ssp.mute"
  , "ssp.dim"
  , "ssp.vol"
  , "ssp.bass"
  , "ssp.treb"
  , "ssp.brightness"
  , "ssp.c_en"
  , "ssp.s_en"
  , "ssp.lipsync"
  , "ssp.sub_en"
  , "ssp.aurostrength"
  , "ssp.auropreset"
  , "ssp.drc"
  , "ssp.cspread"
  , "ssp.dialogcontrol"
  , "ssp.dialognorm"
  , "ssp.IMAXMode"
  , "ssp.spheraudioeffect"
  , "ssp.lfedim"
  , "ssp.zones.list"
  , "ssp.frontpanel.color"
  , "ssp.frontpanel.stbybright"
  , "ssp.frontpanel.actbright"
  , "ssp.frontpanel.stbydelay"
  , "ssp.fs"
  , "ssp.stream"
  , "ssp.format"
  , "ssp.trig1" ]

/-- ATTR_CORE (protocol.py line 16): keys queryable regardless of power
state.  Note that neither member is a key of LOOKUP. -/
def ATTR_CORE : List String := ["Z1POW", "IDM"]

/-- The dynamic attributes of the AVR object that the protocol logic
reads and writes, plus the effect log.  Dynamic Python attributes set
with setattr become an association list from attribute name (including
the leading underscore the source prepends) to value string.
`updateCallback` records whether an update_callback was supplied to the
constructor; `transport` whether a transport is currently attached. -/
structure AVRState where
  attrs : List (String × String)
  poweronRefreshSuccessful : Bool
  updateCallback : Bool
  transport : Bool
  writes : List String
deriving DecidableEq, Repr

/-- Lookup in the dynamic attribute table: getattr with no default,
returning none where Python would raise AttributeError. -/
def findAssoc : List (String × String) → String → Option String
  | [], _ => none
  | (a, b) :: t, k => if a = k then some b else findAssoc t k

/-- Python setattr on the dynamic attribute table: replace the binding
if the name is present, append it otherwise. -/
def updateAssoc : List (String × String) → String → String → List (String × String)
  | [], n, v => [(n, v)]
  | (a, b) :: t, n, v => if a = n then (n, v) :: t else (a, b) :: updateAssoc t n v

/-- The getattr view on a state. -/
def pyGetattr (s : AVRState) (name : String) : Option String :=
  findAssoc s.attrs name

/-- AVR.__init__ (protocol.py lines 84-115): every LOOKUP key gets a
dynamic attribute named with a leading underscore, holding the empty
string; the refresh flag starts false and no transport is attached yet. -/
def initState (update_callback : Bool) : AVRState :=
  { attrs := LOOKUPkeys.map (fun k => ("_" ++ k, ""))
  , poweronRefreshSuccessful := false
  , updateCallback := update_callback
  , transport := false
  , writes := [] }

/-- AVR.command (protocol.py lines 321-343): writes the command bytes to
the transport exactly as given; if no transport is attached the write
raises, is caught, logged and dropped. -/
def command (s : AVRState) (c : String) : AVRState :=
  if s.transport then { s with writes := s.writes ++ [c] } else s

/-- AVR.query (protocol.py lines 300-308): delegates to command with the
item text unchanged. -/
def query (s : AVRState) (item : String) : AVRState :=
  command s item

/-- The special_values list of AVR.set_value (protocol.py line 313). -/
def special_values : List String := ["on", "off", "toggle", "up", "down"]

/-- The wire string built by AVR.set_value (protocol.py lines 310-319)
before it is passed to command. -/
def set_value_wire (c v : String) : String :=
  if v ∈ special_values then c ++ "." ++ v ++ "\n" else c ++ ".[" ++ v ++ "]\n"

/-- AVR.set_value (protocol.py lines 310-319). -/
def set_value (s : AVRState) (c v : String) : AVRState :=
  command s (set_value_wire c v)

/-- AVR.refresh_all (protocol.py lines 147-158): query every LOOKUP key. -/
def refresh_all (s : AVRState) : AVRState :=
  LOOKUPkeys.foldl query s

/-- AVR.refresh_core (protocol.py lines 117-128): query every ATTR_CORE
key. -/
def refresh_core (s : AVRState) : AVRState :=
  ATTR_CORE.foldl query s

/-- AVR.poweron_refresh (protocol.py lines 130-144): if the refresh flag
is set, return at once; otherwise issue a full refresh and reschedule the
loop with call_later.  The Bool component records whether another
iteration was scheduled. -/
def poweron_refresh (s : AVRState) : AVRState × Bool :=
  if s.poweronRefreshSuccessful then (s, false)
  else (refresh_all s, true)

/-- Character-list primitive behind the Python str.startswith test. -/
def startsWithChars : List Char → List Char → Bool
  | [], _ => true
  | _ :: _, [] => false
  | p :: pt, c :: ct => p == c && startsWithChars pt ct

/-- Python data.startswith(pre). -/
def pyStartsWith (s pre : String) : Bool :=
  startsWithChars pre.data s.data

/-- Drops characters up to and including the first dot, returning none
when no dot occurs. -/
def dropThroughDot : List Char → Option (List Char)
  | [] => none
  | c :: t => if c = '.' then some t else dropThroughDot t

/-- Python data.split(".", 2)[-1] (protocol.py line 247): everything
after the second dot; after the first dot when only one occurs; the whole
string when none occurs. -/
def split2Last (s : String) : String :=
  match dropThroughDot s.data with
  | none => s
  | some r1 =>
    match dropThroughDot r1 with
    | none => String.mk r1
    | some r2 => String.mk r2

/-- Whether a character belongs to the strip set of value.strip("[]"). -/
def isBracketChar (c : Char) : Bool :=
  c == '[' || c == ']'

/-- Python value.strip("[]") (protocol.py line 247): remove bracket
characters from both ends. -/
def stripBrackets (s : String) : String :=
  String.mk (((s.data.dropWhile isBracketChar).reverse.dropWhile isBracketChar).reverse)

/-- The outcome record of one _parse_message call: the recognized and
newdata flags, the schema key matched with its extracted value (none for
zone messages and unrecognized messages), the raw messages passed to a
scheduled update callback, and whether a poweron_refresh run was
scheduled. -/
structure ParseOut where
  recognized : Bool
  newdata : Bool
  matched : Option (String × String)
  callbacks : List String
  powerOnScheduled : Bool
deriving DecidableEq, Repr

/-- AVR._parse_message (protocol.py lines 226-298).  Zone-scoped messages
are recognized but never decoded.  Otherwise the first LOOKUP key (in
insertion order) that is a textual prefix of the message wins; the value
is the text after the second dot with surrounding brackets stripped; the
table is updated unconditionally; newdata records whether the stored
value differed; a power-on edge of ssp.power from value 0 to value 1
clears the refresh flag and schedules poweron_refresh; when newdata is
set and an update callback was supplied, exactly one callback carrying
the raw message is scheduled.  The getattr on line 249 raises
AttributeError when the attribute is absent, which the method does not
catch. -/
def parse_message (s : AVRState) (data : String) : Except PyErr (AVRState × ParseOut) :=
  if pyStartsWith data "ssp.zones" = true then
    .ok (s, ⟨true, false, none, [], false⟩)
  else
    match LOOKUPkeys.find? (fun k => pyStartsWith data k) with
    | none => .ok (s, ⟨false, false, none, [], false⟩)
    | some key =>
      match findAssoc s.attrs ("_" ++ key) with
      | none => .error PyErr.attributeError
      | some oldvalue =>
        let value := stripBrackets (split2Last data)
        let newdata : Bool := decide (oldvalue ≠ value)
        let s1 : AVRState := { s with attrs := updateAssoc s.attrs ("_" ++ key) value }
        let edge : Bool := decide (key = "ssp.power" ∧ value = "1" ∧ oldvalue = "0")
        let s2 : AVRState :=
          if edge then { s1 with poweronRefreshSuccessful := false } else s1
        .ok (s2, ⟨true, newdata, some (key, value),
                  if newdata && s.updateCallback then [data] else [], edge⟩)

/-- Convenience projection of parse_message for concrete evaluation: the
error case (unreachable on states whose table covers the schema) returns
the state unchanged with an all-false outcome. -/
def runParse (s : AVRState) (data : String) : AVRState × ParseOut :=
  match parse_message s data with
  | .ok r => r
  | .error _ => (s, ⟨false, false, none, [], false⟩)

/-- Python int(str) restricted to the value strings this protocol
stores: an optional sign followed by one or more decimal digits, none
otherwise. -/
def digitsVal? (l : List Char) : Option Nat :=
  match l with
  | [] => none
  | _ =>
    if l.all Char.isDigit then
      some (l.foldl (fun n c => 10 * n + (c.toNat - 48)) 0)
    else none

/-- Python int applied to an attribute value string. -/
def pyInt (s : String) : Option Int :=
  match s.data with
  | '-' :: rest => (digitsVal? rest).map (fun n => -(n : Int))
  | '+' :: rest => (digitsVal? rest).map (fun n => (n : Int))
  | l => (digitsVal? l).map (fun n => (n : Int))

/-- AVR._get_boolean (protocol.py lines 427-435): bool(int(value)) of
the stored attribute, with AttributeError and ValueError both handled by
returning False. -/
def get_boolean (s : AVRState) (key : String) : Bool :=
  match findAssoc s.attrs ("_" ++ key) with
  | none => false
  | some v =>
    match pyInt v with
    | none => false
    | some n => decide (n ≠ 0)

/-- The wire string built by AVR._set_boolean (protocol.py lines
437-441). -/
def set_boolean_wire (key : String) (value : Bool) : String :=
  if value then key ++ "1" else key ++ "0"

/-- AVR._set_boolean (protocol.py lines 437-441). -/
def set_boolean (s : AVRState) (key : String) (value : Bool) : AVRState :=
  command s (set_boolean_wire key value)

/-- The power property setter (protocol.py lines 455-458): it calls
_set_boolean twice with the same arguments. -/
def power_set (s : AVRState) (value : Bool) : AVRState :=
  set_boolean (set_boolean s "Z1POW" value) "Z1POW" value

/-- The attenuation property getter (protocol.py lines 358-375).  The
body evaluates getattr(self, ssp.vol) where the bare name ssp is not
defined anywhere in the module, so every call raises NameError, which
the except NameError handler turns into -100 before getattr ever runs. -/
def attenuation (_ : AVRState) : Int :=
  -100

/-- The volume property getter (protocol.py lines 383-396): it returns
getattr(self, "ssp.vol") with no default.  Since the constructor and the
parser only ever store attributes named with a leading underscore, the
attribute "ssp.vol" never exists and the getter raises AttributeError. -/
def volume (s : AVRState) : Except PyErr String :=
  match findAssoc s.attrs "ssp.vol" with
  | some v => .ok v
  | none => .error PyErr.attributeError

/-- The volume_as_percentage getter (protocol.py lines 403-415):
(100 - self.volume) / 100.  An error from the volume getter propagates;
otherwise volume is a raw string and the subtraction int minus str
raises TypeError. -/
def volume_as_percentage (s : AVRState) : Except PyErr Int :=
  match volume s with
  | .error e => .error e
  | .ok _ => .error PyErr.typeError

/-- The volume property setter (protocol.py lines 398-401): for an int
in range it sends set_value("ssp.vol", -1 * value); anything else is
silently ignored. -/
def volume_set (s : AVRState) (value : Int) : AVRState :=
  if 0 ≤ value ∧ value < 100 then set_value s "ssp.vol" (toString (-1 * value)) else s

/-- The model property (protocol.py lines 521-524): self._IDM or
"Unknown Model".  The attribute _IDM is read with plain attribute access,
which raises AttributeError when it was never set; the falsy empty
string falls back to the placeholder. -/
def model (s : AVRState) : Except PyErr String :=
  match findAssoc s.attrs "_IDM" with
  | some v => .ok (if v = "" then "Unknown Model" else v)
  | none => .error PyErr.attributeError

/-!  The message framer (AVR.data_received, protocol.py lines 177-181,
and AVR._assemble_buffer, lines 195-214).  data_received appends the
decoded chunk to the buffer; _assemble_buffer splits the whole buffer on
the line-feed character, forwards every non-empty piece to
_parse_message, and then resets the buffer to the empty string.  The
framer is modelled on character lists, with its state the pair of the
buffer and the accumulated list of forwarded messages. -/

/-- Python buffer.split("\n") on character lists: the list of segments
between line-feeds, including empty segments. -/
def splitLF : List Char → List (List Char)
  | [] => [[]]
  | c :: rest =>
    if c = '\n' then [] :: splitLF rest
    else (splitLF rest).modifyHead (fun g => c :: g)

/-- The messages one _assemble_buffer pass forwards from a buffer: the
non-empty segments of the split. -/
def msgsOf (l : List Char) : List (List Char) :=
  (splitLF l).filter (fun m => !m.isEmpty)

/-- One data_received call followed by its _assemble_buffer pass: append
the chunk to the buffer, forward the non-empty segments, clear the
buffer. -/
def feedStep (st : List Char × List (List Char)) (chunk : List Char) :
    List Char × List (List Char) :=
  ([], st.2 ++ msgsOf (st.1 ++ chunk))

/-- Feeding a sequence of chunks to a freshly constructed framer. -/
def feedAll (chunks : List (List Char)) : List Char × List (List Char) :=
  chunks.foldl feedStep ([], [])

/-- The schema-coverage invariant: every LOOKUP key has an entry in the
dynamic attribute table (under its underscore-prefixed name). -/
def keysPresent (s : AVRState) : Prop :=
  ∀ k ∈ LOOKUPkeys, (pyGetattr s ("_" ++ k)).isSome = true

instance (s : AVRState) : Decidable (keysPresent s) := by
  unfold keysPresent
  infer_instance

end Stormaudio

namespace Stormaudio

/-- Dynamic attribute lookup after a setattr: the updated name reads the
new value, every other name is unaffected. -/
theorem findAssoc_updateAssoc (l : List (String × String)) (n v k : String) :
    findAssoc (updateAssoc l n v) k = if k = n then some v else findAssoc l k := by
  induction l with
  | nil =>
    simp only [updateAssoc, findAssoc]
    rcases eq_or_ne n k with h | h
    · subst h
      simp
    · rw [if_neg h, if_neg (Ne.symm h)]
  | cons p t ih =>
    obtain ⟨a, b⟩ := p
    by_cases h1 : a = n
    · subst h1
      simp only [updateAssoc, if_pos rfl, findAssoc]
      rcases eq_or_ne a k with h | h
      · rw [if_pos h, if_pos h.symm]
      · rw [if_neg h, if_neg (Ne.symm h), if_neg h]
    · simp only [updateAssoc, if_neg h1, findAssoc, ih]
      rcases eq_or_ne a k with h2 | h2
      · rw [if_pos h2, if_neg (show ¬k = n from fun hkn => h1 (h2.trans hkn)), if_pos h2]
      · rw [if_neg h2, if_neg h2]

/-- C8: the value-set encoder emits key.value terminated by a line-feed
exactly when the value equals (case-sensitively) one of the reserved
keywords on, off, toggle, up, down, and key.[value] terminated by a
line-feed for every other value. -/
theorem C8_set_value_encoding (k v : String) :
    set_value_wire k v =
      if v = "on" ∨ v = "off" ∨ v = "toggle" ∨ v = "up" ∨ v = "down"
      then k ++ "." ++ v ++ "\n"
      else k ++ ".[" ++ v ++ "]\n" := by
  have hm : (v ∈ special_values) ↔
      (v = "on" ∨ v = "off" ∨ v = "toggle" ∨ v = "up" ∨ v = "down") := by
    simp [special_values]
  by_cases h : v = "on" ∨ v = "off" ∨ v = "toggle" ∨ v = "up" ∨ v = "down"
  · rw [set_value_wire, if_pos (hm.mpr h), if_pos h]
  · rw [set_value_wire, if_neg (fun hc => h (hm.mp hc)), if_neg h]

/-- C10: one assignment to the power property emits the encoded boolean
set command for Z1POW twice in succession on the wire. -/
theorem C10_power_setter_writes_twice (s : AVRState) (v : Bool)
    (h : s.transport = true) :
    (power_set s v).writes =
      s.writes ++ [set_boolean_wire "Z1POW" v, set_boolean_wire "Z1POW" v] := by
  simp [power_set, set_boolean, command, h]

/-- C10 witness: the double write evaluated on a connected fresh state
with value true. -/
theorem C10_power_setter_writes_twice_witness :
    (power_set { initState true with transport := true } true).writes =
      ["Z1POW1", "Z1POW1"] := by
  have h := C10_power_setter_writes_twice { initState true with transport := true } true rfl
  simpa using h

/-- C6 counterexample: a plain query for ssp.vol puts exactly the raw
text on the wire, which differs from the raw text terminated by a
line-feed, refuting the terminated-by-line-feed part of the claim. -/
theorem C6_query_cex :
    (query { initState true with transport := true } "ssp.vol").writes = ["ssp.vol"] ∧
    ("ssp.vol" : String) ≠ "ssp.vol" ++ "\n" := by
  exact ⟨rfl, by decide⟩

/-- C6 amended: a plain query and a plain command are encoded
identically on the wire, as the raw text exactly as given, with no
line-feed appended. -/
theorem C6_query_command_amended (s : AVRState) (raw : String)
    (h : s.transport = true) :
    (query s raw).writes = s.writes ++ [raw] ∧
    (command s raw).writes = s.writes ++ [raw] := by
  constructor <;> simp [query, command, h]

/-- C6 witness: the amended statement evaluated on a connected fresh
state. -/
theorem C6_query_command_amended_witness :
    (query { initState true with transport := true } "ssp.vol").writes = ["ssp.vol"] := by
  have h := C6_query_command_amended { initState true with transport := true } "ssp.vol" rfl
  simpa using h.1

end Stormaudio

namespace Stormaudio

/-- C4: reading the model property on a freshly constructed instance
does not return the placeholder string; it raises AttributeError,
because the constructor initializes underscore attributes only for the
LOOKUP keys and IDM is not among them (it only appears in ATTR_CORE). -/
theorem C4_model_raises_attribute_error :
    model (initState true) = Except.error PyErr.attributeError ∧
    model (initState false) = Except.error PyErr.attributeError ∧
    "IDM" ∈ ATTR_CORE ∧ "IDM" ∉ LOOKUPkeys := by
  exact ⟨rfl, rfl, by decide, by decide⟩

/-- C5: the boolean write round-trip fails on the code.  Encoding a
boolean write for the power key Z1POW with value true produces Z1POW1;
echoed back verbatim and parsed, that message matches no LOOKUP key
(Z1POW is not in the schema), so the state is unchanged and the boolean
read of Z1POW returns false, not true. -/
theorem C5_bool_roundtrip_fails :
    set_boolean_wire "Z1POW" true = "Z1POW1" ∧
    runParse (initState true) "Z1POW1" =
      (initState true, ⟨false, false, none, [], false⟩) ∧
    get_boolean (initState true) "Z1POW" = false ∧
    "Z1POW" ∉ LOOKUPkeys := by
  exact ⟨rfl, by decide, by decide, by decide⟩

/-- C3: after setting volume to 20 the encoded command ssp.vol.[-20]
followed by a line-feed goes out, and parsing the echoed line stores
the string -20 under _ssp.vol; but the attenuation property still reads
-100 (its body evaluates the undefined bare name ssp, and the NameError
handler returns -100), and the volume and volume_as_percentage getters
raise AttributeError (they read the attribute named ssp.vol without the
underscore, which never exists). -/
theorem C3_volume_views_diverge :
    (volume_set { initState true with transport := true } 20).writes =
      ["ssp.vol.[-20]\n"] ∧
    pyGetattr (runParse (volume_set { initState true with transport := true } 20)
        "ssp.vol.[-20]").1 "_ssp.vol" = some "-20" ∧
    attenuation (runParse (volume_set { initState true with transport := true } 20)
        "ssp.vol.[-20]").1 = -100 ∧
    attenuation (runParse (volume_set { initState true with transport := true } 20)
        "ssp.vol.[-20]").1 ≠ -20 ∧
    volume (runParse (volume_set { initState true with transport := true } 20)
        "ssp.vol.[-20]").1 = Except.error PyErr.attributeError ∧
    volume_as_percentage (runParse (volume_set { initState true with transport := true } 20)
        "ssp.vol.[-20]").1 = Except.error PyErr.attributeError := by
  refine ⟨by decide, by decide, rfl, by decide, rfl, rfl⟩

end Stormaudio

namespace Stormaudio

/-- The split of a buffer always has at least one segment. -/
theorem splitLF_ne_nil (l : List Char) : splitLF l ≠ [] := by
  induction l with
  | nil => simp [splitLF]
  | cons c t ih =>
    unfold splitLF
    split
    · simp
    · cases hs : splitLF t with
      | nil => exact absurd hs ih
      | cons a l2 => simp [List.modifyHead]

/-- modifyHead acts on the left part of an append when that part is
non-empty. -/
theorem modifyHead_append_left (f : List Char → List Char)
    (l m : List (List Char)) (h : l ≠ []) :
    (l ++ m).modifyHead f = l.modifyHead f ++ m := by
  cases l with
  | nil => exact absurd rfl h
  | cons a t => rfl

/-- Splitting a buffer that contains a line-feed decomposes into the
split of the part before it and the split of the part after it. -/
theorem splitLF_append_cons (a b : List Char) :
    splitLF (a ++ '\n' :: b) = splitLF a ++ splitLF b := by
  induction a with
  | nil => simp [splitLF]
  | cons c t ih =>
    by_cases hc : c = '\n'
    · subst hc
      show splitLF ('\n' :: (t ++ '\n' :: b)) = splitLF ('\n' :: t) ++ splitLF b
      simp [splitLF, ih]
    · show splitLF (c :: (t ++ '\n' :: b)) = splitLF (c :: t) ++ splitLF b
      simp only [splitLF, if_neg hc, ih]
      rw [modifyHead_append_left _ _ _ (splitLF_ne_nil t)]

/-- The forwarded messages of a buffer containing a line-feed are the
messages of the two halves, in order. -/
theorem msgsOf_append_cons (a b : List Char) :
    msgsOf (a ++ '\n' :: b) = msgsOf a ++ msgsOf b := by
  unfold msgsOf
  rw [splitLF_append_cons, List.filter_append]

/-- A terminating line-feed adds no message. -/
theorem msgsOf_closed (c : List Char) : msgsOf (c ++ ['\n']) = msgsOf c := by
  have h := msgsOf_append_cons c []
  simpa [msgsOf, splitLF] using h

/-- Running the framer over a chunk list from an empty buffer: the
buffer is cleared after every pass and the messages are those of each
chunk taken separately. -/
theorem foldl_feedStep (chunks : List (List Char)) (ms : List (List Char)) :
    chunks.foldl feedStep ([], ms) = ([], ms ++ (chunks.map msgsOf).flatten) := by
  induction chunks generalizing ms with
  | nil => simp
  | cons c t ih => simp [feedStep, ih]

/-- When every chunk ends at a line-feed boundary, per-chunk framing
agrees with framing the concatenation. -/
theorem msgsOf_join_of_aligned (chunks : List (List Char))
    (h : ∀ c ∈ chunks, c = [] ∨ ∃ c2, c = c2 ++ ['\n']) :
    (chunks.map msgsOf).flatten = msgsOf chunks.flatten := by
  induction chunks with
  | nil => simp [msgsOf, splitLF]
  | cons c t ih =>
    have hc := h c (by simp)
    have ht : ∀ x ∈ t, x = [] ∨ ∃ c2, x = c2 ++ ['\n'] :=
      fun x hx => h x (by simp [hx])
    rcases hc with rfl | ⟨c2, rfl⟩
    · simp only [List.map_cons, List.flatten_cons, List.nil_append]
      rw [ih ht]
      simp [msgsOf, splitLF]
    · simp only [List.map_cons, List.flatten_cons]
      rw [msgsOf_closed, ih ht, List.append_assoc]
      show msgsOf c2 ++ msgsOf t.flatten = msgsOf (c2 ++ '\n' :: t.flatten)
      rw [msgsOf_append_cons]

/-- C2 counterexample: feeding the bytes abc and a line-feed split as ab
then c plus line-feed yields the messages ab and c, while feeding the
whole sequence yields the single message abc; moreover a trailing
fragment without a line-feed is parsed immediately as a message and the
buffer is cleared, not retained. -/
theorem C2_framing_cex :
    (feedAll [['a', 'b'], ['c', '\n']]).2 ≠ (feedAll [['a', 'b', 'c', '\n']]).2 ∧
    (feedAll [['a', 'b']]).2 = [['a', 'b']] ∧
    (feedAll [['a', 'b']]).1 = [] := by
  refine ⟨by decide, by decide, by decide⟩

/-- C2 amended: feeding a byte sequence split across chunks yields the
same parsed messages, in the same order, as feeding it whole, provided
every chunk ends at a line-feed boundary; the buffer is cleared after
every feed (a trailing unterminated fragment is parsed immediately, not
retained). -/
theorem C2_framing_amended (chunks : List (List Char))
    (h : ∀ c ∈ chunks, c = [] ∨ ∃ c2, c = c2 ++ ['\n']) :
    (feedAll chunks).2 = (feedAll [chunks.flatten]).2 ∧ (feedAll chunks).1 = [] := by
  unfold feedAll
  rw [foldl_feedStep, foldl_feedStep]
  constructor
  · simp [msgsOf_join_of_aligned chunks h]
  · rfl

/-- C2 witness: the amended statement evaluated at two line-feed
terminated chunks. -/
theorem C2_framing_amended_witness :
    (feedAll [['a', '\n'], ['b', '\n']]).2 =
      (feedAll [['a', '\n', 'b', '\n']]).2 := by
  have h := C2_framing_amended [['a', '\n'], ['b', '\n']] ?_
  · exact h.1
  · intro c hc
    simp only [List.mem_cons, List.not_mem_nil, or_false] at hc
    rcases hc with rfl | rfl
    · exact Or.inr ⟨['a'], rfl⟩
    · exact Or.inr ⟨['b'], rfl⟩

end Stormaudio

namespace Stormaudio

/-- A successful parse either leaves the attribute table unchanged or
performs exactly one setattr on it. -/
theorem parse_message_ok_attrs (s : AVRState) (data : String)
    (r : AVRState × ParseOut) (h : parse_message s data = Except.ok r) :
    r.1.attrs = s.attrs ∨ ∃ n v, r.1.attrs = updateAssoc s.attrs n v := by
  unfold parse_message at h
  split at h
  · cases h
    exact Or.inl rfl
  · split at h
    · cases h
      exact Or.inl rfl
    · split at h
      · exact absurd h (by simp)
      · rename_i x1 key hkey x2 old hold
        cases h
        right
        refine ⟨"_" ++ key, stripBrackets (split2Last data), ?_⟩
        dsimp only
        split
        · rfl
        · rfl

/-- No successful parse ever sets the refresh flag: the result flag can
only be true when it was already true before the call. -/
theorem parse_message_flag_monotone (s : AVRState) (data : String)
    (r : AVRState × ParseOut) (h : parse_message s data = Except.ok r) :
    r.1.poweronRefreshSuccessful = true → s.poweronRefreshSuccessful = true := by
  unfold parse_message at h
  split at h
  · cases h
    exact id
  · split at h
    · cases h
      exact id
    · split at h
      · exact absurd h (by simp)
      · cases h
        intro hp
        dsimp only at hp
        split at hp
        · simp at hp
        · exact hp

/-- C9: every key of the attribute schema has an entry in the attribute
state table in every reachable state: the invariant holds at
construction, is preserved by every successful parse, and no other
operation (command, and thereby query, set_value, refresh_all,
poweron_refresh) touches the table. -/
theorem C9_schema_keys_always_present :
    (∀ cb, keysPresent (initState cb)) ∧
    (∀ s data r, parse_message s data = Except.ok r →
      keysPresent s → keysPresent r.1) ∧
    (∀ s c, (command s c).attrs = s.attrs) ∧
    (∀ s, (refresh_all s).attrs = s.attrs ∧
      ((poweron_refresh s).1).attrs = s.attrs) := by
  have hq : ∀ (keys : List String) (s : AVRState),
      (keys.foldl query s).attrs = s.attrs := by
    intro keys
    induction keys with
    | nil => intro s; rfl
    | cons k t ih =>
      intro s
      rw [List.foldl_cons, ih]
      unfold query command
      split <;> rfl
  refine ⟨?_, ?_, ?_, ?_⟩
  · intro cb
    cases cb <;> decide
  · intro s data r h hs k hk
    rcases parse_message_ok_attrs s data r h with he | ⟨n, v, he⟩
    · show (findAssoc r.1.attrs ("_" ++ k)).isSome = true
      rw [he]
      exact hs k hk
    · show (findAssoc r.1.attrs ("_" ++ k)).isSome = true
      rw [he, findAssoc_updateAssoc]
      split
      · rfl
      · exact hs k hk
  · intro s c
    unfold command
    split <;> rfl
  · intro s
    constructor
    · exact hq LOOKUPkeys s
    · unfold poweron_refresh
      split
      · rfl
      · exact hq LOOKUPkeys s

/-- C9 witness: the invariant evaluated at construction and across one
concrete parse. -/
theorem C9_schema_keys_always_present_witness :
    keysPresent (runParse (initState true) "ssp.mute.[1]").1 := by
  exact C9_schema_keys_always_present.2.1 (initState true) "ssp.mute.[1]"
    (runParse (initState true) "ssp.mute.[1]") rfl
    (C9_schema_keys_always_present.1 true)

end Stormaudio

namespace Stormaudio

/-- C1: the retry-loop mechanics honour the flag (no refresh once the
flag is true, a refresh and a reschedule every cycle while it is false,
and the flag starts false), but no successful parse can ever set the
flag: the result flag is true only when it already was, so once a
power-on edge starts the loop it reschedules forever, whatever
input-name data arrives. -/
theorem C1_poweron_loop_never_stops :
    (∀ cb, (initState cb).poweronRefreshSuccessful = false) ∧
    (∀ s data r, parse_message s data = Except.ok r →
      r.1.poweronRefreshSuccessful = true → s.poweronRefreshSuccessful = true) ∧
    (∀ s, s.poweronRefreshSuccessful = false →
      (poweron_refresh s).1 = refresh_all s ∧ (poweron_refresh s).2 = true) ∧
    (∀ s, s.poweronRefreshSuccessful = true →
      (poweron_refresh s).1 = s ∧ (poweron_refresh s).2 = false) := by
  refine ⟨fun cb => rfl, parse_message_flag_monotone, ?_, ?_⟩
  · intro s h
    constructor <;> simp [poweron_refresh, h]
  · intro s h
    constructor <;> simp [poweron_refresh, h]

/-- C1 witness: parsing input-name data after construction leaves the
flag false, and the loop body at a false flag schedules another
iteration. -/
theorem C1_poweron_loop_never_stops_witness :
    (runParse (initState true) "ssp.input.list.[2]").1.poweronRefreshSuccessful = false ∧
    (poweron_refresh (initState true)).2 = true := by
  have h := C1_poweron_loop_never_stops
  have hmono := h.2.1 (initState true) "ssp.input.list.[2]"
    (runParse (initState true) "ssp.input.list.[2]") rfl
  constructor
  · cases hx : (runParse (initState true) "ssp.input.list.[2]").1.poweronRefreshSuccessful with
    | false => rfl
    | true => exact absurd (hmono hx) (by decide)
  · exact (h.2.2.1 (initState true) rfl).2

/-- C7 counterexample: ssp.zones.list is a schema key whose stored value
is the empty string, yet parsing a message that carries the different
value a for it yields changed false, schedules no notification and
leaves the state unchanged, because zone-scoped messages short-circuit
before value extraction. -/
theorem C7_zones_cex :
    "ssp.zones.list" ∈ LOOKUPkeys ∧
    pyGetattr (initState true) "_ssp.zones.list" = some "" ∧
    ("a" : String) ≠ "" ∧
    runParse (initState true) "ssp.zones.list.[a]" =
      (initState true, ⟨true, false, none, [], false⟩) := by
  refine ⟨by decide, by decide, by decide, by decide⟩

/-- C7 amended: for every message that the parser matches to a schema
key with an extracted value (which excludes the zone-scoped keys, whose
messages are recognized but never matched), and with an update callback
registered, changed is true exactly when the value differs from the
stored one (the empty never-observed value included), exactly one
notification carrying the raw message is scheduled when changed is true
and none otherwise, and the table now holds the new value. -/
theorem C7_change_detection_amended (s : AVRState) (data : String)
    (r : AVRState × ParseOut) (k v : String)
    (hcb : s.updateCallback = true)
    (h : parse_message s data = Except.ok r)
    (hm : r.2.matched = some (k, v)) :
    (r.2.newdata = true ↔ pyGetattr s ("_" ++ k) ≠ some v) ∧
    r.2.callbacks = (if r.2.newdata = true then [data] else []) ∧
    pyGetattr r.1 ("_" ++ k) = some v := by
  unfold parse_message at h
  split at h
  · cases h
    simp at hm
  · split at h
    · cases h
      simp at hm
    · split at h
      · exact absurd h (by simp)
      · rename_i x1 key hkey x2 old hold
        cases h
        dsimp only at hm
        rw [Option.some_inj] at hm
        cases hm
        refine ⟨?_, ?_, ?_⟩
        · dsimp only
          unfold pyGetattr
          rw [hold]
          simp
        · dsimp only
          rw [hcb, Bool.and_true]
        · dsimp only
          unfold pyGetattr
          split
          · show findAssoc (updateAssoc s.attrs ("_" ++ k) (stripBrackets (split2Last data)))
              ("_" ++ k) = some (stripBrackets (split2Last data))
            rw [findAssoc_updateAssoc, if_pos rfl]
          · show findAssoc (updateAssoc s.attrs ("_" ++ k) (stripBrackets (split2Last data)))
              ("_" ++ k) = some (stripBrackets (split2Last data))
            rw [findAssoc_updateAssoc, if_pos rfl]

/-- C7 witness: the amended statement evaluated on a fresh state at a
first real value for the mute key. -/
theorem C7_change_detection_amended_witness :
    (runParse (initState true) "ssp.mute.[1]").2.newdata = true ∧
    (runParse (initState true) "ssp.mute.[1]").2.callbacks = ["ssp.mute.[1]"] := by
  have h := C7_change_detection_amended (initState true) "ssp.mute.[1]"
    (runParse (initState true) "ssp.mute.[1]") "ssp.mute" "1" rfl rfl (by decide)
  have hn : (runParse (initState true) "ssp.mute.[1]").2.newdata = true :=
    h.1.mpr (by decide)
  refine ⟨hn, ?_⟩
  rw [h.2.1, if_pos hn]

end Stormaudio
